import Mathlib

/-
Verification of the LightVisualizer lighting/rendering engine
(src/unnamed/part_000, second file version at lines 701-1972, and
src/src/renderer/ui.js) against its natural-language specification.

Modelling conventions:
* Finite JS doubles are modelled as exact rationals.  A numeric input
  field that is missing, NaN or infinite is modelled as `none`; this is
  exactly the set of values rejected by Number.isFinite, so `finiteOr`
  becomes `Option.getD`.
* JS strings in the color pipeline are modelled as lists of characters.
* Trigonometric functions (Math.sin, Math.cos) and Math.sqrt are
  transcendental, so functions whose source computes a unit direction
  vector with them take that unit vector as an explicit parameter.
-/

namespace LV

/-- JS helper clamp(v, min, max) = Math.max(min, Math.min(max, v)) from the
renderer source (part_000 line 706). -/
def clamp (v lo hi : ℚ) : ℚ := max lo (min hi v)

/-- JS helper finiteOr(value, fallback) (part_000 line 710): the value when it
is a finite number, the fallback otherwise.  Missing or non-finite numeric
fields are modelled as `none`. -/
def finiteOr (v : Option ℚ) (fallback : ℚ) : ℚ := v.getD fallback

/-- THREE.MathUtils.lerp(a, b, t) = a + (b - a) * t. -/
def lerp (a b t : ℚ) : ℚ := a + (b - a) * t

/-- A 3-component vector of exact rationals, standing for THREE.Vector3. -/
structure Vec3 where
  x : ℚ
  y : ℚ
  z : ℚ
  deriving DecidableEq

def Vec3.add (a b : Vec3) : Vec3 := ⟨a.x + b.x, a.y + b.y, a.z + b.z⟩

def Vec3.smul (a : Vec3) (k : ℚ) : Vec3 := ⟨a.x * k, a.y * k, a.z * k⟩

def Vec3.dot (a b : Vec3) : ℚ := a.x * b.x + a.y * b.y + a.z * b.z

/-- The lighting state object handed to applyLightingState.  Numeric fields
are `Option ℚ` (`none` = missing or non-finite, see `finiteOr`); the
haze-enabled flag can be absent or a boolean; quality and color fields can be
absent or any string. -/
structure LightingStateIn where
  azimuth : Option ℚ := none
  elevation : Option ℚ := none
  throwDistance : Option ℚ := none
  beamAngle : Option ℚ := none
  softness : Option ℚ := none
  ambientFill : Option ℚ := none
  hazeEnabled : Option Bool := none
  hazeDensity : Option ℚ := none
  hazeHeight : Option ℚ := none
  hazeQuality : Option String := none
  lux : Option ℚ := none
  finalLightColorHex : Option String := none
  houseLightColorHex : Option String := none
  houseLightIntensity : Option ℚ := none
  deriving DecidableEq

/-- Every scalar value applyLightingState writes to the spotlight, the ambient
lights, the preview-material uniforms and the haze-volume uniforms
(part_000 lines 1661-1780).  Angles are kept in degrees: the source converts
with THREE.MathUtils.degToRad, a fixed positive scale by pi/180 that is
transcendental and strictly monotone, so the degree value carries the same
information. -/
structure LightingApplied where
  azimuth : ℚ
  elevation : ℚ
  throwDistance : ℚ
  beamAngle : ℚ
  softness : ℚ
  ambientFill : ℚ
  hazeEnabled : ℚ
  hazeDensity : ℚ
  hazeHeight : ℚ
  hazeQuality : String
  hazeStepCount : ℚ
  hazeShadowSamples : ℚ
  hazeExtinction : ℚ
  lux : ℚ
  lightHex : String
  houseLightColor : String
  houseLightIntensity : ℚ
  targetPos : Vec3
  lightPos : Vec3
  spotIntensity : ℚ
  spotPenumbra : ℚ
  spotAngleDeg : ℚ
  ambientIntensity : ℚ
  lightGain : ℚ
  previewRadius : ℚ
  spotCenterX : ℚ
  spotCenterY : ℚ
  beamFactor : ℚ
  phaseG : ℚ
  beamSoftness : ℚ
  deriving DecidableEq

/-- Shallow embedding of applyLightingState (part_000 lines 1661-1780).

The parameter `dir` is the unit vector produced by
vectorFromAzEl(azimuth, elevation) (part_000 line 734); its trigonometry is
transcendental, so the resulting unit vector is passed in explicitly.  The
source computes towardLight = (lightPos - targetPos).normalize(); since
lightPos - targetPos = dir * throwDistance with throwDistance clamped to at
least 1.2 and dir of unit length, that normalization returns dir itself, and
the embedding uses dir for towardLight. -/
def applyLightingState (s : LightingStateIn) (dir : Vec3) : LightingApplied :=
  let azimuth := finiteOr s.azimuth 0
  let elevation := finiteOr s.elevation 18
  let throwDistance := clamp (finiteOr s.throwDistance 3.2) 1.2 8.0
  let beamAngle := clamp (finiteOr s.beamAngle 44) 10 80
  let softness := clamp (finiteOr s.softness 0.35) 0 1
  let ambientFill := clamp (finiteOr s.ambientFill 2) 0 10
  let hazeEnabled : ℚ := if s.hazeEnabled = some false then 0 else 1
  let hazeDensity := clamp (finiteOr s.hazeDensity 0) 0 1
  let hazeHeight := clamp (finiteOr s.hazeHeight 0.8) 0 2.4
  let hazeQuality :=
    if s.hazeQuality = some "Low" ∨ s.hazeQuality = some "High" then
      s.hazeQuality.getD "Medium"
    else "Medium"
  let hazeStepCount : ℚ :=
    if hazeQuality = "Low" then 14 else if hazeQuality = "High" then 32 else 22
  let hazeShadowSamples : ℚ :=
    if hazeQuality = "Low" then 1 else if hazeQuality = "High" then 4 else 2
  let hazeExtinction := hazeDensity * 0.95
  let lux := clamp (finiteOr s.lux 900) 1 4000
  let lightHex :=
    match s.finalLightColorHex with
    | some h => if h = "" then "#ffd6a8" else h
    | none => "#ffd6a8"
  let houseLightColor :=
    match s.houseLightColorHex with
    | some h => if h = "" then "#ffffff" else h
    | none => "#ffffff"
  let houseLightIntensity := clamp (finiteOr s.houseLightIntensity 0) 0 5
  let targetPos : Vec3 := ⟨0, 1.0, 0⟩
  let lightPos := targetPos.add (dir.smul throwDistance)
  let normal : Vec3 := ⟨0, 0, 1⟩
  let towardLight := dir
  let incidence := max (normal.dot towardLight) 0.15
  let candela := lux * throwDistance * throwDistance / incidence
  let calibrated := candela * 0.03
  { azimuth := azimuth
    elevation := elevation
    throwDistance := throwDistance
    beamAngle := beamAngle
    softness := softness
    ambientFill := ambientFill
    hazeEnabled := hazeEnabled
    hazeDensity := hazeDensity
    hazeHeight := hazeHeight
    hazeQuality := hazeQuality
    hazeStepCount := hazeStepCount
    hazeShadowSamples := hazeShadowSamples
    hazeExtinction := hazeExtinction
    lux := lux
    lightHex := lightHex
    houseLightColor := houseLightColor
    houseLightIntensity := houseLightIntensity
    targetPos := targetPos
    lightPos := lightPos
    spotIntensity := clamp calibrated 0.01 12000
    spotPenumbra := softness
    spotAngleDeg := beamAngle
    ambientIntensity := clamp (ambientFill / 100) 0 0.1
    lightGain := clamp (lux / 1200) 0.12 3.5
    previewRadius := clamp (0.16 + beamAngle / 80 * 0.26 + throwDistance * 0.02) 0.18 0.56
    spotCenterX := clamp (0.5 + azimuth / 85 * 0.28) 0.12 0.88
    spotCenterY := clamp (0.5 - elevation / 70 * 0.28) 0.12 0.88
    beamFactor := clamp (beamAngle / 80) 0.15 1.0
    phaseG := lerp 0.32 0.5 (clamp hazeDensity 0 1)
    beamSoftness := lerp 0.03 0.16 softness }

/-- The closed interval membership used to state clamp-range facts. -/
def InRange (lo x hi : ℚ) : Prop := lo ≤ x ∧ x ≤ hi

/-- JS strings of the ui.js color pipeline are modelled as lists of
characters. -/
abbrev JsStr := List Char

/-- Value of one character of the regex class [a-fA-F0-9], by character code:
digits 0-9 are codes 48-57, a-f are 97-102, A-F are 65-70. -/
def hexDigitVal (c : Char) : Option ℕ :=
  if 48 ≤ c.toNat ∧ c.toNat ≤ 57 then some (c.toNat - 48)
  else if 97 ≤ c.toNat ∧ c.toNat ≤ 102 then some (c.toNat - 87)
  else if 65 ≤ c.toNat ∧ c.toNat ≤ 70 then some (c.toNat - 55)
  else none

/-- Membership in the regex character class [a-fA-F0-9]. -/
def isHexDigit (c : Char) : Bool := (hexDigitVal c).isSome

/-- The regex test from sanitizeHex (ui.js line 206):
text matches a hash sign followed by exactly six hex digits. -/
def isValidHex : JsStr → Bool
  | '#' :: rest => rest.length == 6 && rest.all isHexDigit
  | _ => false

/-- String.prototype.trim: strip leading and trailing whitespace. -/
def jsTrim (s : JsStr) : JsStr :=
  ((s.dropWhile Char.isWhitespace).reverse.dropWhile Char.isWhitespace).reverse

/-- String.prototype.toLowerCase, character by character. -/
def jsToLower (s : JsStr) : JsStr := s.map Char.toLower

/-- sanitizeHex (ui.js lines 204-208) with its default fallback #ffffff:
trim the input (absent input behaves as the empty string), keep it lowercased
when it matches the hex-color regex, otherwise return the fallback. -/
def sanitizeHex (input : Option JsStr) : JsStr :=
  let text := jsTrim (input.getD [])
  if isValidHex text then jsToLower text else ['#', 'f', 'f', 'f', 'f', 'f', 'f']

/-- parseInt(clean, 16): sanitizeHex always hands this exactly six hex digits,
on which parseInt is this left fold. -/
def parseHex16 (s : JsStr) : ℕ := s.foldl (fun acc c => 16 * acc + (hexDigitVal c).getD 0) 0

/-- hexToRgb (ui.js lines 210-218).  For the nonneg parse value n,
(n >> 16) & 255 = n / 2^16 % 256, (n >> 8) & 255 = n / 2^8 % 256 and
n & 255 = n % 256. -/
def hexToRgb (hex : JsStr) : ℕ × ℕ × ℕ :=
  let clean := (sanitizeHex (some hex)).drop 1
  let n := parseHex16 clean
  (n / 65536 % 256, n / 256 % 256, n % 256)

/-- Math.round: for the nonnegative arguments produced by this pipeline,
JS round-half-up is the floor of the argument plus one half.  (The exact
double quotient x*y/255 is never exactly halfway between two integers, since
255 is odd, and it sits at distance at least 1/510 from any half-integer, far
above the rounding error of the double division, so the double rounding of
the source agrees with this exact rational rounding.) -/
def jsRound (q : ℚ) : ℤ := ⌊q + 1 / 2⌋

/-- clamp(Math.round(v), 0, 255) from rgbToHex (ui.js line 222), as a byte. -/
def byteOfQ (v : ℚ) : ℕ := (max 0 (min 255 (jsRound v))).toNat

/-- The lowercase hex digit characters produced by Number.toString(16). -/
def hexDigitChar (n : ℕ) : Char := if n < 10 then Char.ofNat (48 + n) else Char.ofNat (87 + n)

/-- v.toString(16).padStart(2, "0") for a byte value. -/
def byteToHex (n : ℕ) : JsStr := [hexDigitChar (n / 16), hexDigitChar (n % 16)]

/-- rgbToHex (ui.js lines 220-223). -/
def rgbToHex (r g b : ℚ) : JsStr :=
  '#' :: (byteToHex (byteOfQ r) ++ byteToHex (byteOfQ g) ++ byteToHex (byteOfQ b))

/-- multiplyHex (ui.js lines 225-229): channel-wise product of two colors. -/
def multiplyHex (hexA hexB : JsStr) : JsStr :=
  let a := hexToRgb hexA
  let b := hexToRgb hexB
  rgbToHex ((a.1 * b.1 : ℚ) / 255) ((a.2.1 * b.2.1 : ℚ) / 255) ((a.2.2 * b.2.2 : ℚ) / 255)

/-- finalLightHex (ui.js lines 248-250), with the two state fields it reads
(state.lightColorHex and state.gelHex) made explicit parameters. -/
def finalLightHex (lightColorHex gelHex : JsStr) : JsStr := multiplyHex lightColorHex gelHex

/-- The camera fields read and written by getCameraState/applyCameraState:
the camera position and the orbit-controls target. -/
structure CameraEngine where
  position : Vec3
  target : Vec3
  deriving DecidableEq

/-- An incoming camera state object: each field may be absent or a non-array
(modelled as none) or an array of rationals. -/
structure CameraStateIn where
  position : Option (List ℚ) := none
  target : Option (List ℚ) := none
  deriving DecidableEq

/-- The object returned by getCameraState. -/
structure CameraStateOut where
  position : List ℚ
  target : List ℚ
  deriving DecidableEq

/-- getCameraState (part_000 lines 1405-1410); Vector3.toArray is [x, y, z]. -/
def getCameraState (e : CameraEngine) : CameraStateOut :=
  { position := [e.position.x, e.position.y, e.position.z]
    target := [e.target.x, e.target.y, e.target.z] }

/-- Vector3.fromArray: set x, y, z from the first three entries.  Callers
guard with length = 3, so the defaults are never used. -/
def fromArray (l : List ℚ) : Vec3 := ⟨l.getD 0 0, l.getD 1 0, l.getD 2 0⟩

/-- applyCameraState (part_000 lines 1412-1422).  A missing state object is a
no-op; each field is applied only when it is an array of length 3.  The
closing controls.update() has no pending user-input deltas during this call
and leaves position and target unchanged, and requestRender does not touch
camera state, so both are identities here. -/
def applyCameraState (cs : Option CameraStateIn) (e : CameraEngine) : CameraEngine :=
  match cs with
  | none => e
  | some c =>
    let e1 :=
      match c.position with
      | some l => if l.length = 3 then { e with position := fromArray l } else e
      | none => e
    match c.target with
    | some l => if l.length = 3 then { e1 with target := fromArray l } else e1
    | none => e1

/-- GoboState: the four gobo parameters read by updateGoboTexture. -/
structure GoboState where
  scale : ℚ
  rotation : ℚ
  focus : ℚ
  invert : Bool
  deriving DecidableEq

/-- Number.prototype.toFixed(digits) quantization: the signed integer whose
decimal digits (scaled by 10^digits) toFixed prints, rounding half away from
zero.  Two values print equal toFixed strings exactly when these integers are
equal (for the clamped ranges used in the gobo key, which share one sign
format per component up to the minus sign carried by the integer). -/
def toFixedInt (digits : ℕ) (q : ℚ) : ℤ :=
  if 0 ≤ q then ⌊q * 10 ^ digits + 1 / 2⌋ else -⌊-(q * 10 ^ digits) + 1 / 2⌋

/-- The gobo fingerprint (part_000 lines 1597-1602): the key string
[scale.toFixed(3), rotation.toFixed(2), focus.toFixed(2), invert ? 1 : 0]
joined by a separator is uniquely determined by, and determines, this
quadruple of quantized components, so key-string equality is equality of
this quadruple. -/
def mkGoboKey (gs : GoboState) : ℤ × ℤ × ℤ × Bool :=
  (toFixedInt 3 (clamp gs.scale 0.3 3.0),
   toFixedInt 2 (clamp gs.rotation (-180) 180),
   toFixedInt 2 (clamp gs.focus 0 8),
   gs.invert)

/-- The engine fields that the gobo processor reads and writes.  Image and
texture resources are identified by numbers; a fresh processed texture gets
the current recompute counter as its identity.  recomputeCount counts how
often the expensive raster pipeline (redraw, blur, optional invert
difference, radial feather) has run. -/
structure GoboEngine where
  goboImage : Option ℕ := none
  goboTexture : Option ℕ := none
  lastGoboKey : Option (ℤ × ℤ × ℤ × Bool) := none
  ctx : Bool := true
  hasGobo : Bool := false
  recomputeCount : ℕ := 0
  deriving DecidableEq

/-- clearGobo (part_000 lines 1579-1587): drop the image, reset the key to
the empty string (modelled as no key: every real key is nonempty), dispose
the processed texture and unbind the mask. -/
def clearGobo (e : GoboEngine) : GoboEngine :=
  { e with goboImage := none, lastGoboKey := none, goboTexture := none, hasGobo := false }

/-- updateGoboTexture (part_000 lines 1589-1659).  With no loaded image the
call clears the gobo; with no 2d context it returns; when the fingerprint
matches the previous call and a processed texture exists it only requests a
render; otherwise it stores the key and runs the raster pipeline, disposing
the old texture and binding a fresh one. -/
def updateGoboTexture (gs : GoboState) (e : GoboEngine) : GoboEngine :=
  if e.goboImage.isNone then clearGobo e
  else if e.ctx = false then e
  else
    let key := mkGoboKey gs
    if e.lastGoboKey = some key ∧ e.goboTexture.isSome then e
    else
      { e with lastGoboKey := some key,
               goboTexture := some e.recomputeCount,
               hasGobo := true,
               recomputeCount := e.recomputeCount + 1 }

/-- The wall material bound during rendering: the high-quality
MeshStandardMaterial or the preview ShaderMaterial implementing the
Real-Time Shading Model. -/
inductive WallMaterial
  | hq
  | preview
  deriving DecidableEq

/-- The renderer shadow-map filtering type values the engine uses. -/
inductive ShadowMapType
  | pcfSoft
  | basic
  deriving DecidableEq

/-- One renderer.render(scene, camera) invocation: which wall material was
bound and the render surface size at that moment. -/
structure RenderCall where
  material : WallMaterial
  width : ℚ
  height : ℚ
  deriving DecidableEq

/-- The mutable engine fields touched by the high-quality render job.
pixelScale is the renderer pixel ratio. -/
structure EngineState where
  spotPosition : Vec3
  spotMap : Option ℕ
  wallMaterial : WallMaterial
  wallReceiveShadow : Bool
  spotCastShadow : Bool
  shadowMapSize : ℚ × ℚ
  shadowRadius : ℚ
  shadowMapEnabled : Bool
  shadowMapType : ShadowMapType
  pixelScale : ℚ
  surfaceW : ℚ
  surfaceH : ℚ
  controlsEnabled : Bool
  cancelRender : Bool
  lastRenderBytes : Option ℕ
  renderPaused : Bool
  lighting : Option LightingApplied
  renderLog : List RenderCall
  deriving DecidableEq

/-- Effect of a this.applyLightingState(state) call on the engine fields of
the job model: the light moves to the computed position and the derived
lighting values are installed (atomically, as one record). -/
def applyLightingStateE (s : LightingStateIn) (dir : Vec3) (e : EngineState) : EngineState :=
  { e with lighting := some (applyLightingState s dir),
           spotPosition := (applyLightingState s dir).lightPos }

/-- The environment resolving everything outside the single-threaded job:
when the cooperative cancel flag is observed set (requestCancelRender may run
during the awaited yield between samples), the wall-clock reading at each
iteration, the jittered light position drawn from Math.random, which render
calls fault, whether 2d contexts and PNG encodes succeed, and the identities
of encoded byte buffers. -/
structure RenderEnv where
  cancelAt : ℕ → Bool
  elapsedMs : ℕ → ℚ
  jitterPos : ℕ → Vec3
  renderThrows : ℕ → Bool
  accumCtxOk : Bool
  pngOk : Bool
  pngBytes : ℕ
  fbCtxOk : Bool
  fbRenderThrows : Bool
  fbPngOk : Bool
  fbPngBytes : ℕ

/-- The four terminal outcomes renderHighQuality can report:
completed = ok true; canceled = ok false with the canceled mark;
fallbackDone = ok true with the fallback mark (the FailedFallback report);
failed = ok false with a message. -/
inductive RenderResult
  | completed
  | canceled
  | fallbackDone
  | failed
  deriving DecidableEq

/-- renderHighQualityFallback (part_000 lines 1794-1826): one single-pass
render with the preview material (the Real-Time Shading Model) at the
requested size, encoded to PNG.  The first component is none when an
exception escapes (context unavailable, render fault, or PNG encode
failure); the finally block restores the six saved bindings on every path. -/
def renderHighQualityFallback (state : LightingStateIn) (dir : Vec3) (w h : ℚ)
    (env : RenderEnv) (e : EngineState) : Option RenderResult × EngineState :=
  if env.fbCtxOk = false then (none, e)
  else
    let restore := fun (x : EngineState) =>
      { x with spotMap := e.spotMap,
               spotCastShadow := e.spotCastShadow,
               shadowMapEnabled := e.shadowMapEnabled,
               shadowMapType := e.shadowMapType,
               wallMaterial := e.wallMaterial,
               wallReceiveShadow := e.wallReceiveShadow }
    let e1 := applyLightingStateE state dir
      { e with spotMap := none, spotCastShadow := true,
               shadowMapEnabled := true, shadowMapType := ShadowMapType.basic,
               wallMaterial := WallMaterial.preview, wallReceiveShadow := false }
    if env.fbRenderThrows then (none, restore e1)
    else
      let e2 := { e1 with renderLog := e1.renderLog ++ [⟨WallMaterial.preview, w, h⟩] }
      if env.fbPngOk = false then (none, restore e2)
      else (some RenderResult.fallbackDone,
            restore { e2 with lastRenderBytes := some env.fbPngBytes })

/-- The sample loop of renderHighQuality (part_000 lines 1908-1925), with
fuel = remaining samples (16 - i).  Per iteration: poll the cancel flag and
break; check the 20 second wall-clock ceiling and throw; jitter the light;
render (which can fault) and accumulate; report progress and yield.  The
first component is ok true when the loop exited through the cancel break,
ok false when all samples ran, error when an exception was thrown. -/
def hqLoop (env : RenderEnv) (w h : ℚ) : ℕ → ℕ → EngineState → Except Unit Bool × EngineState
  | 0, _, e => (Except.ok false, e)
  | fuel + 1, i, e =>
    if env.cancelAt i then (Except.ok true, e)
    else if env.elapsedMs i > 20000 then (Except.error (), e)
    else
      let e1 := { e with spotPosition := env.jitterPos i }
      if env.renderThrows i then (Except.error (), e1)
      else hqLoop env w h fuel (i + 1)
        { e1 with renderLog := e1.renderLog ++ [⟨e1.wallMaterial, w, h⟩] }

/-- The finally block of renderHighQuality (part_000 lines 1943-1959), run on
every exit path: restore light position, wall material and shadow bindings,
pixel ratio and surface size from the values saved before the job, unpause
the realtime loop, re-apply the lighting state, unlock the camera controls
and clear the cancel flag. -/
def hqRestore (state : LightingStateIn) (dir : Vec3) (pre : EngineState)
    (x : EngineState) : EngineState :=
  { applyLightingStateE state dir
      { x with spotPosition := pre.spotPosition,
               wallMaterial := pre.wallMaterial,
               wallReceiveShadow := false,
               spotCastShadow := pre.spotCastShadow,
               shadowMapSize := pre.shadowMapSize,
               shadowRadius := pre.shadowRadius,
               shadowMapEnabled := pre.shadowMapEnabled,
               shadowMapType := pre.shadowMapType,
               pixelScale := pre.pixelScale,
               surfaceW := pre.surfaceW,
               surfaceH := pre.surfaceH,
               renderPaused := false } with
    controlsEnabled := true, cancelRender := false }

/-- The state entering the try block of renderHighQuality (part_000 lines
1857-1892): cancel flag reset, controls locked, realtime loop paused, then
the high-fidelity switches (hq material, shadows on with soft filtering and
a 2048 map, radius 6, pixel ratio 1, output surface at the requested size)
and one applyLightingState call. -/
def hqEnter (state : LightingStateIn) (dir : Vec3) (w h : ℚ) (pre : EngineState) : EngineState :=
  applyLightingStateE state dir
    { pre with cancelRender := false, controlsEnabled := false, renderPaused := true,
               wallMaterial := WallMaterial.hq, wallReceiveShadow := true,
               spotCastShadow := true, shadowMapEnabled := true,
               shadowMapType := ShadowMapType.pcfSoft, shadowMapSize := (2048, 2048),
               shadowRadius := 6, pixelScale := 1, surfaceW := w, surfaceH := h }

/-- renderHighQuality (part_000 lines 1856-1967).  Reset the cancel flag and
lock the controls; save the pre-job bindings; switch to the high-fidelity
settings and run the 16-sample loop; on cancellation discard the partial
buffer and report canceled; on success encode the accumulation canvas into
lastRenderBytes and report completed; on any exception (no context, timeout,
render fault, encode failure) run the single-pass fallback, reporting its
result, or failed when even the fallback throws; the finally block
(hqRestore) runs on every path.  The function is total: no exception escapes
the call boundary. -/
def renderHighQuality (state : LightingStateIn) (dir : Vec3) (w h : ℚ)
    (env : RenderEnv) (pre : EngineState) : RenderResult × EngineState :=
  let inner : Except Unit Bool × EngineState :=
    if env.accumCtxOk = false then (Except.error (), hqEnter state dir w h pre)
    else
      match hqLoop env w h 16 0 (hqEnter state dir w h pre) with
      | (Except.ok broke, e3) =>
        if (if broke then true else env.cancelAt 16) then (Except.ok true, e3)
        else if env.pngOk then (Except.ok false, { e3 with lastRenderBytes := some env.pngBytes })
        else (Except.error (), e3)
      | (Except.error (), e3) => (Except.error (), e3)
  let afterCatch : RenderResult × EngineState :=
    match inner with
    | (Except.ok true, e3) => (RenderResult.canceled, e3)
    | (Except.ok false, e3) => (RenderResult.completed, e3)
    | (Except.error (), e3) =>
      match renderHighQualityFallback state dir w h env e3 with
      | (some r, e4) => (r, e4)
      | (none, e4) => (RenderResult.failed, e4)
  (afterCatch.1, hqRestore state dir pre afterCatch.2)

/-- A canonical idle engine state used by concrete witnesses: controls
unlocked, wall not receiving shadows, no pending cancel request, light at
the position the default lighting state puts it. -/
def preState0 : EngineState :=
  { spotPosition := ⟨0, 1, 3.2⟩
    spotMap := none
    wallMaterial := WallMaterial.hq
    wallReceiveShadow := false
    spotCastShadow := true
    shadowMapSize := (1024, 1024)
    shadowRadius := 1
    shadowMapEnabled := true
    shadowMapType := ShadowMapType.pcfSoft
    pixelScale := 1.5
    surfaceW := 800
    surfaceH := 600
    controlsEnabled := true
    cancelRender := false
    lastRenderBytes := none
    renderPaused := false
    lighting := none
    renderLog := [] }

/-- A witness environment where a cancel request is already observed at the
first poll and nothing else goes wrong. -/
def envCancel0 : RenderEnv :=
  { cancelAt := fun _ => true
    elapsedMs := fun _ => 0
    jitterPos := fun _ => ⟨0, 0, 0⟩
    renderThrows := fun _ => false
    accumCtxOk := true
    pngOk := true
    pngBytes := 1
    fbCtxOk := true
    fbRenderThrows := false
    fbPngOk := true
    fbPngBytes := 2 }

/-- A witness environment where the wall clock is already past the 20 second
ceiling at the first iteration and the fallback succeeds. -/
def envTimeout0 : RenderEnv :=
  { cancelAt := fun _ => false
    elapsedMs := fun _ => 20001
    jitterPos := fun _ => ⟨0, 0, 0⟩
    renderThrows := fun _ => false
    accumCtxOk := true
    pngOk := true
    pngBytes := 1
    fbCtxOk := true
    fbRenderThrows := false
    fbPngOk := true
    fbPngBytes := 2 }

def Vec3.sub (a b : Vec3) : Vec3 := ⟨a.x - b.x, a.y - b.y, a.z - b.z⟩

/-- GLSL fract: the fractional part. -/
def glFract (q : ℚ) : ℚ := q - ⌊q⌋

/-- GLSL mix(a, b, t) = a * (1 - t) + b * t. -/
def glMix (a b t : ℚ) : ℚ := a * (1 - t) + b * t

/-- GLSL step(edge, x): 0 below the edge, 1 from the edge on. -/
def glStep (edge x : ℚ) : ℚ := if x < edge then 0 else 1

/-- GLSL smoothstep.  When e0 = e1 GLSL leaves the result undefined; the
rational division then yields 0, and no claim depends on that case. -/
def smoothstep (e0 e1 x : ℚ) : ℚ :=
  let t := clamp ((x - e0) / (e1 - e0)) 0 1
  t * t * (3 - 2 * t)

/-- hash31 from the haze shader (part_000 lines 1001-1005), exact over ℚ. -/
def hash31 (p : Vec3) : ℚ :=
  let p1 : Vec3 := ⟨glFract (p.x * 0.1031), glFract (p.y * 0.1031), glFract (p.z * 0.1031)⟩
  let d := p1.dot ⟨p1.y + 33.33, p1.z + 33.33, p1.x + 33.33⟩
  let p2 : Vec3 := ⟨p1.x + d, p1.y + d, p1.z + d⟩
  glFract ((p2.x + p2.y) * p2.z)

/-- noise3 from the haze shader (part_000 lines 1007-1026): trilinear value
noise over the eight cell corners with a smoothstep-eased fraction. -/
def noise3 (p : Vec3) : ℚ :=
  let i : Vec3 := ⟨(⌊p.x⌋ : ℚ), (⌊p.y⌋ : ℚ), (⌊p.z⌋ : ℚ)⟩
  let f : Vec3 := ⟨glFract p.x, glFract p.y, glFract p.z⟩
  let g : Vec3 := ⟨f.x * f.x * (3 - 2 * f.x), f.y * f.y * (3 - 2 * f.y), f.z * f.z * (3 - 2 * f.z)⟩
  let n000 := hash31 ⟨i.x, i.y, i.z⟩
  let n100 := hash31 ⟨i.x + 1, i.y, i.z⟩
  let n010 := hash31 ⟨i.x, i.y + 1, i.z⟩
  let n110 := hash31 ⟨i.x + 1, i.y + 1, i.z⟩
  let n001 := hash31 ⟨i.x, i.y, i.z + 1⟩
  let n101 := hash31 ⟨i.x + 1, i.y, i.z + 1⟩
  let n011 := hash31 ⟨i.x, i.y + 1, i.z + 1⟩
  let n111 := hash31 ⟨i.x + 1, i.y + 1, i.z + 1⟩
  let nx00 := glMix n000 n100 g.x
  let nx10 := glMix n010 n110 g.x
  let nx01 := glMix n001 n101 g.x
  let nx11 := glMix n011 n111 g.x
  let nxy0 := glMix nx00 nx10 g.y
  let nxy1 := glMix nx01 nx11 g.y
  glMix nxy0 nxy1 g.z

/-- The fbm loop body (part_000 lines 1028-1037): 4 octaves, amplitude
halving, frequency scaling by 2.01 with a fixed offset. -/
def fbmGo : ℕ → Vec3 → ℚ → ℚ → ℚ
  | 0, _, _, v => v
  | n + 1, p, a, v =>
    fbmGo n ⟨p.x * 2.01 + 17.1, p.y * 2.01 + 9.2, p.z * 2.01 + 5.3⟩ (a * 0.5) (v + a * noise3 p)

def fbm (p : Vec3) : ℚ := fbmGo 4 p 0.5 0

/-- The transcendental and sampling operations of the fragment shader that
have no exact rational counterpart: sqrt (length/normalize), exp, pow, sin,
the shadow depth texture fetch, the shadow matrix as a projective map, and
the haze model matrix as an affine map. -/
structure ShaderOracle where
  sqrtQ : ℚ → ℚ
  expQ : ℚ → ℚ
  powQ : ℚ → ℚ → ℚ
  sinQ : ℚ → ℚ
  shadowTex : ℚ → ℚ → ℚ
  shadowProj : Vec3 → ℚ × ℚ × ℚ × ℚ
  modelXf : Vec3 → Vec3

/-- The uniforms of buildHazeVolumeMaterial (part_000 lines 940-964). -/
structure HazeUniforms where
  hazeEnabled : ℚ
  hazeDensity : ℚ
  hazeHeight : ℚ
  hazeColor : Vec3
  lightColor : Vec3
  volumeWidth : ℚ
  volumeHeight : ℚ
  volumeDepth : ℚ
  edgeFeather : ℚ
  phaseG : ℚ
  time : ℚ
  stepCount : ℚ
  shadowSampleCount : ℚ
  shadowTexelX : ℚ
  shadowTexelY : ℚ
  shadowBias : ℚ
  shadowEnabled : ℚ
  lightPos : Vec3
  lightDir : Vec3
  beamCos : ℚ
  beamSoftness : ℚ

/-- Per-fragment ray inputs: the volume-local ray origin and direction
(cameraPosition and vWorldPos mapped through invModelMatrix, taken as
inputs since the affine transform is resolved outside the shader core),
the fragment coordinates feeding the jitter hash, and the world-space
camera position. -/
structure HazeRay where
  ro : Vec3
  rd : Vec3
  fragX : ℚ
  fragY : ℚ
  cameraPos : Vec3

/-- phaseHG (part_000 lines 1039-1043). -/
def phaseHG (o : ShaderOracle) (g mu : ℚ) : ℚ :=
  let g2 := g * g
  let denom := o.powQ (max (1 + g2 - 2 * g * mu) 0.001) 1.5
  (1 - g2) / (12.56637 * denom)

/-- shadowVisibility (part_000 lines 1045-1067).  The in-loop break once
float(i) reaches shadowSampleCount is equivalent to the per-tap guard here,
because the guard condition is monotone in i. -/
def shadowVisibility (o : ShaderOracle) (u : HazeUniforms) (worldPos : Vec3) : ℚ :=
  if u.shadowEnabled < 0.5 then 1
  else
    let sc := o.shadowProj worldPos
    let pw := max sc.2.2.2 0.0001
    let px := sc.1 / pw
    let py := sc.2.1 / pw
    let pz := sc.2.2.1 / pw
    if px < 0 ∨ px > 1 ∨ py < 0 ∨ py > 1 ∨ pz > 1 then 1
    else
      let depth := pz - u.shadowBias
      let tap := fun (i : ℕ) (ox oy : ℚ) =>
        if ((i : ℚ)) ≥ u.shadowSampleCount then 0
        else glStep depth (o.shadowTex (px + ox * u.shadowTexelX * 1.2) (py + oy * u.shadowTexelY * 1.2))
      let vis := tap 0 (-1) (-1) + tap 1 1 (-1) + tap 2 (-1) 1 + tap 3 1 1
      max (vis / max u.shadowSampleCount 1) 0.25

/-- rayBox (part_000 lines 1069-1078).  A zero direction component yields an
infinite reciprocal in GLSL but 0 over ℚ; the disabled-haze result below
holds for every value this function returns, so the discrepancy cannot
affect it. -/
def rayBox (ro rd bmin bmax : Vec3) : Option (ℚ × ℚ) :=
  let inv : Vec3 := ⟨1 / rd.x, 1 / rd.y, 1 / rd.z⟩
  let tA : Vec3 := ⟨(bmin.x - ro.x) * inv.x, (bmin.y - ro.y) * inv.y, (bmin.z - ro.z) * inv.z⟩
  let tB : Vec3 := ⟨(bmax.x - ro.x) * inv.x, (bmax.y - ro.y) * inv.y, (bmax.z - ro.z) * inv.z⟩
  let t0 := max (max (min tA.x tB.x) (min tA.y tB.y)) (min tA.z tB.z)
  let t1 := min (min (max tA.x tB.x) (max tA.y tB.y)) (max tA.z tB.z)
  if t1 > max t0 0 then some (t0, t1) else none

/-- The raymarch loop of the haze fragment shader (part_000 lines
1094-1150), fuel = remaining iterations out of MAX_STEPS = 36.  State is the
running transmittance and accumulated in-scattered radiance; the loop exits
once the step index reaches stepCount, the sample leaves the volume, or the
transmittance drops below 0.02, and skips samples whose edge mask or height
band is negligible. -/
def hazeLoopGo (o : ShaderOracle) (u : HazeUniforms) (ray : HazeRay)
    (tNear tFar tOffset dt : ℚ) : ℕ → ℕ → ℚ → Vec3 → ℚ × Vec3
  | 0, _, tr, ac => (tr, ac)
  | fuel + 1, i, tr, ac =>
    if ((i : ℚ)) ≥ u.stepCount then (tr, ac)
    else
      let t := tNear + tOffset + ((i : ℚ) + 0.5) * dt
      if t > tFar then (tr, ac)
      else
        let pLocal := ray.ro.add (ray.rd.smul t)
        let pWorld := o.modelXf pLocal
        let ex := |pLocal.x| / max (0.5 * u.volumeWidth) 0.001
        let ey := |pLocal.y| / max (0.5 * u.volumeHeight) 0.001
        let ez := |pLocal.z| / max (0.5 * u.volumeDepth) 0.001
        let fx := 1 - smoothstep (1 - u.edgeFeather) 1 ex
        let fy := 1 - smoothstep (1 - u.edgeFeather) 1 ey
        let fz := 1 - smoothstep (1 - u.edgeFeather) 1 ez
        let edgeMask := fx * fy * fz
        if edgeMask ≤ 0.001 then hazeLoopGo o u ray tNear tFar tOffset dt fuel (i + 1) tr ac
        else
          let worldY := pWorld.y + 0.2
          let band := 1 - smoothstep u.hazeHeight (u.hazeHeight + 0.9) worldY
          if band ≤ 0.001 then hazeLoopGo o u ray tNear tFar tOffset dt fuel (i + 1) tr ac
          else
            let lightToSample := pWorld.sub u.lightPos
            let d := max (o.sqrtQ (lightToSample.dot lightToSample)) 0.001
            let lightRay := lightToSample.smul (1 / d)
            let coneRaw := smoothstep (u.beamCos - u.beamSoftness) (u.beamCos + u.beamSoftness)
              (lightRay.dot u.lightDir)
            let cone := o.powQ coneRaw 1.05
            let distAtten := 1 / (1 + 0.22 * d * d)
            let n := fbm ⟨pWorld.x * 1.1 + 0, pWorld.y * 0.85 + u.time * 0.035,
              pWorld.z * 1.0 + u.time * 0.02⟩
            let coneDensity := glMix 0.28 1 cone
            let densityField := band * u.hazeDensity * coneDensity * edgeMask * glMix 0.42 1.25 n
            let sigmaS := densityField * 1.35
            let sigmaT := densityField * 1.55
            let viewVec := ray.cameraPos.sub pWorld
            let viewDir := viewVec.smul (1 / o.sqrtQ (viewVec.dot viewVec))
            let mu := viewDir.dot (lightRay.smul (-1))
            let phaseAniso := phaseHG o u.phaseG mu
            let phase := (glMix 0.0795775 phaseAniso 0.3 + 0.0795775 * 0.85) *
              (0.82 + 0.35 * (1 - |mu|))
            let shadowVis := shadowVisibility o u pWorld
            let shadowWeight := glMix 1 shadowVis 0.2
            let mediumShadow := o.expQ (-densityField * d * 0.75)
            let beamLit := (0.12 + cone * 4.2) * distAtten
            let scatter := (u.lightColor.smul
                (beamLit * phase * sigmaS * mediumShadow * shadowWeight * u.hazeEnabled * 38.0)).add
              (u.hazeColor.smul (sigmaS * 0.014 * u.hazeEnabled * (0.35 + 0.65 * cone)))
            let accum2 := ac.add (scatter.smul (tr * dt))
            let trans2 := tr * o.expQ (-sigmaT * dt * u.hazeEnabled * 3.6)
            if trans2 < 0.02 then (trans2, accum2)
            else hazeLoopGo o u ray tNear tFar tOffset dt fuel (i + 1) trans2 accum2

/-- MAX_STEPS of the raymarch loop (part_000 line 1094). -/
def hazeMaxSteps : ℕ := 36

/-- The body of the haze fragment shader after a successful volume
intersection (part_000 lines 1090-1154): clip the near hit to the camera,
discard degenerate path lengths, jitter the march start per fragment,
run the march, and compose the accumulated color with the alpha
1 - finalTransmittance (scaled and clamped as in the source). -/
def hazeMarch (o : ShaderOracle) (u : HazeUniforms) (ray : HazeRay) (t0 t1 : ℚ) :
    Option (Vec3 × ℚ) :=
  let tNear := max t0 0
  let len := t1 - tNear
  if len ≤ 0.0001 then none
  else
    let dt := len / max u.stepCount 1
    let jitter := glFract (o.sinQ (ray.fragX * 12.9898 + ray.fragY * 78.233 + u.time * 3.1)
      * 43758.5453)
    let tOffset := jitter * dt
    let res := hazeLoopGo o u ray tNear t1 tOffset dt hazeMaxSteps 0 1 ⟨0, 0, 0⟩
    let alpha := clamp ((1 - res.1) * 1.1) 0 0.92
    let color := res.2.add (u.hazeColor.smul ((1 - res.1) * 0.08))
    some (color, alpha)

/-- The haze fragment shader main (part_000 lines 1080-1155): none is a
discarded fragment (no contribution); otherwise the accumulated color and
the alpha composited over the surface result.  The box bounds bmin/bmax are
inlined into the rayBox call. -/
def hazeMain (o : ShaderOracle) (u : HazeUniforms) (ray : HazeRay) : Option (Vec3 × ℚ) :=
  match rayBox ray.ro ray.rd
      ⟨-(0.5 * u.volumeWidth), -(0.5 * u.volumeHeight), -(0.5 * u.volumeDepth)⟩
      ⟨0.5 * u.volumeWidth, 0.5 * u.volumeHeight, 0.5 * u.volumeDepth⟩ with
  | none => none
  | some (t0, t1) => hazeMarch o u ray t0 t1

/-- A concrete oracle for witnesses: exp is constantly 1 (so exp 0 = 1), the
other operations are constantly 0, and the model transform is the identity. -/
def oracle0 : ShaderOracle :=
  { sqrtQ := fun _ => 0
    expQ := fun _ => 1
    powQ := fun _ _ => 0
    sinQ := fun _ => 0
    shadowTex := fun _ _ => 0
    shadowProj := fun _ => (0, 0, 0, 1)
    modelXf := fun v => v }

/-- Concrete uniforms for witnesses: haze disabled, other values as the
material defaults. -/
def hazeUniforms0 : HazeUniforms :=
  { hazeEnabled := 0
    hazeDensity := 0.35
    hazeHeight := 1.2
    hazeColor := ⟨0.7, 0.8, 0.9⟩
    lightColor := ⟨1, 0.8, 0.6⟩
    volumeWidth := 3.8
    volumeHeight := 2.4
    volumeDepth := 1.8
    edgeFeather := 0.28
    phaseG := 0.62
    time := 0
    stepCount := 22
    shadowSampleCount := 2
    shadowTexelX := 1 / 1024
    shadowTexelY := 1 / 1024
    shadowBias := 0.0006
    shadowEnabled := 0
    lightPos := ⟨0, 1.2, 3.2⟩
    lightDir := ⟨0, 0, -1⟩
    beamCos := 0.92
    beamSoftness := 0.08 }

/-- A concrete ray for witnesses, looking down the volume axis. -/
def hazeRay0 : HazeRay :=
  { ro := ⟨0, 0, 5⟩
    rd := ⟨0, 0, -1⟩
    fragX := 0
    fragY := 0
    cameraPos := ⟨0, 1, 5⟩ }

theorem le_clamp (v lo hi : ℚ) : lo ≤ clamp v lo hi := le_max_left _ _

theorem clamp_le (v lo hi : ℚ) (h : lo ≤ hi) : clamp v lo hi ≤ hi :=
  max_le h (min_le_left _ _)

theorem inRange_clamp (v lo hi : ℚ) (h : lo ≤ hi) : InRange lo (clamp v lo hi) hi :=
  ⟨le_clamp v lo hi, clamp_le v lo hi h⟩

theorem inRange_lerp (a b t : ℚ) (hab : a ≤ b) (h0 : 0 ≤ t) (h1 : t ≤ 1) :
    InRange a (lerp a b t) b := by
  unfold lerp
  constructor
  · nlinarith
  · nlinarith

/-- C1: for every lighting state the spotlight intensity equals
lux * throwDistance^2 / max(cosIncidence, 0.15) scaled by the calibration
factor 0.03 and clamped to [0.01, 12000], where cosIncidence is the dot
product of the wall normal (0,0,1) with the unit vector from the target
toward the light; at lux = 900, throwDistance = 3.2 and incidence = 1 the
intensity is exactly 276.48, inside the clamp ceiling. -/
theorem spot_intensity_formula (s : LightingStateIn) (dir : Vec3)
    (hdir : dir.dot dir = 1) :
    (applyLightingState s dir).spotIntensity =
      clamp ((applyLightingState s dir).lux * (applyLightingState s dir).throwDistance ^ 2
        / max (Vec3.dot ⟨0, 0, 1⟩ dir) 0.15 * 0.03) 0.01 12000 ∧
    (applyLightingState { lux := some 900, throwDistance := some 3.2 } ⟨0, 0, 1⟩).spotIntensity
      = 276.48 ∧
    (276.48 : ℚ) < 12000 := by
  refine ⟨?_, ?_, by norm_num⟩
  · simp only [applyLightingState]
    rw [pow_two, ← mul_assoc]
  · norm_num [applyLightingState, clamp, finiteOr, Vec3.dot, max_def, min_def]

/-- Witness for spot_intensity_formula at dir = (0,0,1), a unit vector. -/
theorem spot_intensity_formula_witness :
    Vec3.dot ⟨0, 0, 1⟩ ⟨0, 0, 1⟩ = 1 ∧
    ((applyLightingState {} ⟨0, 0, 1⟩).spotIntensity =
      clamp ((applyLightingState {} ⟨0, 0, 1⟩).lux * (applyLightingState {} ⟨0, 0, 1⟩).throwDistance ^ 2
        / max (Vec3.dot ⟨0, 0, 1⟩ ⟨0, 0, 1⟩) 0.15 * 0.03) 0.01 12000 ∧
    (applyLightingState { lux := some 900, throwDistance := some 3.2 } ⟨0, 0, 1⟩).spotIntensity
      = 276.48 ∧
    (276.48 : ℚ) < 12000) :=
  ⟨by norm_num [Vec3.dot], spot_intensity_formula {} ⟨0, 0, 1⟩ (by norm_num [Vec3.dot])⟩

/-- C2 counterexample: applyLightingState does not clamp the azimuth field.
The UI binds the azimuth control to the documented range [-80, 80]
(ui.js line 747), yet an input state with azimuth 200 is applied with
azimuth 200, outside that/every documented range, so the words
"every numeric field ... including azimuth and elevation" fail. -/
theorem lighting_azimuth_not_clamped :
    (applyLightingState { azimuth := some 200 } ⟨0, 0, 1⟩).azimuth = 200 ∧
    ¬ InRange (-80) (applyLightingState { azimuth := some 200 } ⟨0, 0, 1⟩).azimuth 80 := by
  constructor
  · norm_num [applyLightingState, finiteOr]
  · intro h
    rw [InRange] at h
    norm_num [applyLightingState, finiteOr] at h

/-- C2 amended: for every input state (including out-of-range numeric fields)
every numeric field other than azimuth and elevation is clamped to its
documented range by applyLightingState (azimuth and elevation are only
replaced by defaults when non-finite, not clamped), and every derived numeric
(spot intensity, cone angle, penumbra, ambient fill level, haze parameters)
stays within its declared clamp range. -/
theorem lighting_clamp_ranges (s : LightingStateIn) (dir : Vec3) :
    InRange 1.2 (applyLightingState s dir).throwDistance 8.0 ∧
    InRange 10 (applyLightingState s dir).beamAngle 80 ∧
    InRange 0 (applyLightingState s dir).softness 1 ∧
    InRange 0 (applyLightingState s dir).ambientFill 10 ∧
    InRange 0 (applyLightingState s dir).hazeDensity 1 ∧
    InRange 0 (applyLightingState s dir).hazeHeight 2.4 ∧
    InRange 1 (applyLightingState s dir).lux 4000 ∧
    InRange 0 (applyLightingState s dir).houseLightIntensity 5 ∧
    InRange 0.01 (applyLightingState s dir).spotIntensity 12000 ∧
    InRange 10 (applyLightingState s dir).spotAngleDeg 80 ∧
    InRange 0 (applyLightingState s dir).spotPenumbra 1 ∧
    InRange 0 (applyLightingState s dir).ambientIntensity 0.1 ∧
    InRange 0.12 (applyLightingState s dir).lightGain 3.5 ∧
    InRange 0.18 (applyLightingState s dir).previewRadius 0.56 ∧
    InRange 0.12 (applyLightingState s dir).spotCenterX 0.88 ∧
    InRange 0.12 (applyLightingState s dir).spotCenterY 0.88 ∧
    InRange 0.15 (applyLightingState s dir).beamFactor 1.0 ∧
    InRange 0 (applyLightingState s dir).hazeExtinction 0.95 ∧
    InRange 0.32 (applyLightingState s dir).phaseG 0.5 ∧
    InRange 0.03 (applyLightingState s dir).beamSoftness 0.16 ∧
    ((applyLightingState s dir).hazeStepCount = 14 ∨
      (applyLightingState s dir).hazeStepCount = 22 ∨
      (applyLightingState s dir).hazeStepCount = 32) ∧
    ((applyLightingState s dir).hazeShadowSamples = 1 ∨
      (applyLightingState s dir).hazeShadowSamples = 2 ∨
      (applyLightingState s dir).hazeShadowSamples = 4) ∧
    ((applyLightingState s dir).hazeEnabled = 0 ∨ (applyLightingState s dir).hazeEnabled = 1) := by
  simp only [applyLightingState]
  have hd := inRange_clamp (finiteOr s.hazeDensity 0) 0 1 (by norm_num)
  have hs := inRange_clamp (finiteOr s.softness 0.35) 0 1 (by norm_num)
  refine ⟨inRange_clamp _ _ _ (by norm_num), inRange_clamp _ _ _ (by norm_num),
    inRange_clamp _ _ _ (by norm_num), inRange_clamp _ _ _ (by norm_num),
    inRange_clamp _ _ _ (by norm_num), inRange_clamp _ _ _ (by norm_num),
    inRange_clamp _ _ _ (by norm_num), inRange_clamp _ _ _ (by norm_num),
    inRange_clamp _ _ _ (by norm_num), inRange_clamp _ _ _ (by norm_num),
    hs, inRange_clamp _ _ _ (by norm_num), inRange_clamp _ _ _ (by norm_num),
    inRange_clamp _ _ _ (by norm_num), inRange_clamp _ _ _ (by norm_num),
    inRange_clamp _ _ _ (by norm_num), inRange_clamp _ _ _ (by norm_num),
    ?_, ?_, ?_, ?_, ?_, ?_⟩
  · exact ⟨mul_nonneg hd.1 (by norm_num), by nlinarith [hd.2]⟩
  · exact inRange_lerp _ _ _ (by norm_num)
      (le_clamp _ _ _) (clamp_le _ _ _ (by norm_num))
  · exact inRange_lerp _ _ _ (by norm_num) hs.1 hs.2
  · split_ifs <;> simp
  · split_ifs <;> simp
  · split_ifs <;> simp

/-- C10: applyLightingState is total (it is a function in the embedding, with
no error branch); any missing or non-finite numeric field is replaced by its
documented default before clamping; haze counts as enabled unless the
hazeEnabled field is exactly the boolean false; any hazeQuality other than
the strings Low or High is treated as Medium, with 14/22/32 raymarch steps
and 1/2/4 shadow taps for Low/Medium/High. -/
theorem lighting_defaults_totality (s : LightingStateIn) (dir : Vec3) :
    (applyLightingState s dir).azimuth = s.azimuth.getD 0 ∧
    (applyLightingState s dir).elevation = s.elevation.getD 18 ∧
    (applyLightingState s dir).throwDistance = clamp (s.throwDistance.getD 3.2) 1.2 8.0 ∧
    (applyLightingState s dir).beamAngle = clamp (s.beamAngle.getD 44) 10 80 ∧
    (applyLightingState s dir).softness = clamp (s.softness.getD 0.35) 0 1 ∧
    (applyLightingState s dir).ambientFill = clamp (s.ambientFill.getD 2) 0 10 ∧
    (applyLightingState s dir).hazeDensity = clamp (s.hazeDensity.getD 0) 0 1 ∧
    (applyLightingState s dir).hazeHeight = clamp (s.hazeHeight.getD 0.8) 0 2.4 ∧
    (applyLightingState s dir).lux = clamp (s.lux.getD 900) 1 4000 ∧
    (applyLightingState s dir).houseLightIntensity = clamp (s.houseLightIntensity.getD 0) 0 5 ∧
    (applyLightingState s dir).hazeEnabled = (if s.hazeEnabled = some false then 0 else 1) ∧
    (applyLightingState s dir).hazeQuality =
      (if s.hazeQuality = some "Low" then "Low"
        else if s.hazeQuality = some "High" then "High" else "Medium") ∧
    (applyLightingState s dir).hazeStepCount =
      (if s.hazeQuality = some "Low" then 14
        else if s.hazeQuality = some "High" then 32 else 22) ∧
    (applyLightingState s dir).hazeShadowSamples =
      (if s.hazeQuality = some "Low" then 1
        else if s.hazeQuality = some "High" then 4 else 2) := by
  rcases hq : s.hazeQuality with _ | q
  · simp [applyLightingState, finiteOr, hq]
  · by_cases h1 : q = "Low"
    · subst h1
      simp [applyLightingState, finiteOr, hq]
    · by_cases h2 : q = "High"
      · subst h2
        simp [applyLightingState, finiteOr, hq]
      · simp [applyLightingState, finiteOr, hq, h1, h2]

theorem hexDigitChar_spec (n : ℕ) (h : n < 16) :
    hexDigitVal (hexDigitChar n) = some n ∧
    (hexDigitChar n).isWhitespace = false ∧
    (hexDigitChar n).toLower = hexDigitChar n ∧
    isHexDigit (hexDigitChar n) = true := by
  revert h
  revert n
  decide

theorem byteOfQ_le (v : ℚ) : byteOfQ v ≤ 255 := by
  unfold byteOfQ
  have h1 : max 0 (min 255 (jsRound v)) ≤ (255 : ℤ) := by
    apply max_le
    · norm_num
    · exact min_le_left _ _
  omega

theorem hexToRgb_digits (d0 d1 d2 d3 d4 d5 : ℕ)
    (h0 : d0 < 16) (h1 : d1 < 16) (h2 : d2 < 16)
    (h3 : d3 < 16) (h4 : d4 < 16) (h5 : d5 < 16) :
    hexToRgb ('#' :: [hexDigitChar d0, hexDigitChar d1, hexDigitChar d2,
        hexDigitChar d3, hexDigitChar d4, hexDigitChar d5]) =
      (d0 * 16 + d1, d2 * 16 + d3, d4 * 16 + d5) := by
  obtain ⟨v0, w0, l0, x0⟩ := hexDigitChar_spec d0 h0
  obtain ⟨v1, w1, l1, x1⟩ := hexDigitChar_spec d1 h1
  obtain ⟨v2, w2, l2, x2⟩ := hexDigitChar_spec d2 h2
  obtain ⟨v3, w3, l3, x3⟩ := hexDigitChar_spec d3 h3
  obtain ⟨v4, w4, l4, x4⟩ := hexDigitChar_spec d4 h4
  obtain ⟨v5, w5, l5, x5⟩ := hexDigitChar_spec d5 h5
  have hh : ('#' : Char).isWhitespace = false := by decide
  unfold hexToRgb sanitizeHex
  rw [show (some ('#' :: [hexDigitChar d0, hexDigitChar d1, hexDigitChar d2,
        hexDigitChar d3, hexDigitChar d4, hexDigitChar d5])).getD [] =
      ('#' :: [hexDigitChar d0, hexDigitChar d1, hexDigitChar d2,
        hexDigitChar d3, hexDigitChar d4, hexDigitChar d5]) from rfl]
  have htrim : jsTrim ('#' :: [hexDigitChar d0, hexDigitChar d1, hexDigitChar d2,
      hexDigitChar d3, hexDigitChar d4, hexDigitChar d5]) =
      '#' :: [hexDigitChar d0, hexDigitChar d1, hexDigitChar d2,
        hexDigitChar d3, hexDigitChar d4, hexDigitChar d5] := by
    unfold jsTrim
    simp [List.dropWhile, hh, w0, w1, w2, w3, w4, w5]
  rw [htrim]
  have hvalid : isValidHex ('#' :: [hexDigitChar d0, hexDigitChar d1, hexDigitChar d2,
      hexDigitChar d3, hexDigitChar d4, hexDigitChar d5]) = true := by
    unfold isValidHex
    simp [x0, x1, x2, x3, x4, x5]
  rw [if_pos hvalid]
  have hlow : ('#' : Char).toLower = '#' := by decide
  unfold jsToLower
  simp only [List.map, hlow, l0, l1, l2, l3, l4, l5]
  unfold parseHex16
  simp only [List.drop, List.foldl, v0, v1, v2, v3, v4, v5, Option.getD]
  simp only [Prod.mk.injEq]
  refine ⟨by omega, by omega, by omega⟩

theorem hexToRgb_rgbToHex (r g b : ℚ) :
    hexToRgb (rgbToHex r g b) = (byteOfQ r, byteOfQ g, byteOfQ b) := by
  have hr := byteOfQ_le r
  have hg := byteOfQ_le g
  have hb := byteOfQ_le b
  have h := hexToRgb_digits (byteOfQ r / 16) (byteOfQ r % 16) (byteOfQ g / 16)
    (byteOfQ g % 16) (byteOfQ b / 16) (byteOfQ b % 16)
    (by omega) (by omega) (by omega) (by omega) (by omega) (by omega)
  unfold rgbToHex byteToHex
  simp only [List.cons_append, List.nil_append]
  unfold hexToRgb at h ⊢
  rw [show ([hexDigitChar (byteOfQ r / 16), hexDigitChar (byteOfQ r % 16),
      hexDigitChar (byteOfQ g / 16), hexDigitChar (byteOfQ g % 16),
      hexDigitChar (byteOfQ b / 16), hexDigitChar (byteOfQ b % 16)] : JsStr) =
    [hexDigitChar (byteOfQ r / 16), hexDigitChar (byteOfQ r % 16),
      hexDigitChar (byteOfQ g / 16), hexDigitChar (byteOfQ g % 16),
      hexDigitChar (byteOfQ b / 16), hexDigitChar (byteOfQ b % 16)] from rfl]
  rw [h]
  simp only [Prod.mk.injEq]
  refine ⟨by omega, by omega, by omega⟩

/-- C8: for every pair of valid 6-digit hex color strings, the final light
color is the channel-wise product of base color and gel tint: reading back
the channels of the result gives, per channel, round(a * b / 255) clamped to
[0, 255], where a and b are the corresponding channels of the inputs. -/
theorem final_color_channelwise (a b : JsStr)
    (ha : isValidHex a = true) (hb : isValidHex b = true) :
    finalLightHex a b = multiplyHex a b ∧
    hexToRgb (multiplyHex a b) =
      ((max 0 (min 255 (jsRound (((hexToRgb a).1 * (hexToRgb b).1 : ℚ) / 255)))).toNat,
        (max 0 (min 255 (jsRound (((hexToRgb a).2.1 * (hexToRgb b).2.1 : ℚ) / 255)))).toNat,
        (max 0 (min 255 (jsRound (((hexToRgb a).2.2 * (hexToRgb b).2.2 : ℚ) / 255)))).toNat) := by
  refine ⟨rfl, ?_⟩
  unfold multiplyHex
  rw [hexToRgb_rgbToHex]
  rfl

/-- Witness for final_color_channelwise at base #ffd6a8 and gel #3f5dff. -/
theorem final_color_channelwise_witness :
    isValidHex ['#', 'f', 'f', 'd', '6', 'a', '8'] = true ∧
    isValidHex ['#', '3', 'f', '5', 'd', 'f', 'f'] = true ∧
    (finalLightHex ['#', 'f', 'f', 'd', '6', 'a', '8'] ['#', '3', 'f', '5', 'd', 'f', 'f'] =
      multiplyHex ['#', 'f', 'f', 'd', '6', 'a', '8'] ['#', '3', 'f', '5', 'd', 'f', 'f'] ∧
    hexToRgb (multiplyHex ['#', 'f', 'f', 'd', '6', 'a', '8'] ['#', '3', 'f', '5', 'd', 'f', 'f']) =
      ((max 0 (min 255 (jsRound (((hexToRgb ['#', 'f', 'f', 'd', '6', 'a', '8']).1 *
          (hexToRgb ['#', '3', 'f', '5', 'd', 'f', 'f']).1 : ℚ) / 255)))).toNat,
        (max 0 (min 255 (jsRound (((hexToRgb ['#', 'f', 'f', 'd', '6', 'a', '8']).2.1 *
          (hexToRgb ['#', '3', 'f', '5', 'd', 'f', 'f']).2.1 : ℚ) / 255)))).toNat,
        (max 0 (min 255 (jsRound (((hexToRgb ['#', 'f', 'f', 'd', '6', 'a', '8']).2.2 *
          (hexToRgb ['#', '3', 'f', '5', 'd', 'f', 'f']).2.2 : ℚ) / 255)))).toNat)) :=
  ⟨by decide, by decide,
    final_color_channelwise ['#', 'f', 'f', 'd', '6', 'a', '8']
      ['#', '3', 'f', '5', 'd', 'f', 'f'] (by decide) (by decide)⟩

/-- C9: camera state round-trips losslessly: applying a well-formed state
(position and target both arrays of three numbers) and reading it back gives
the same arrays, and applying the state read from a camera leaves the camera
position and the orbit target unchanged. -/
theorem camera_state_roundtrip (p t : List ℚ) (hp : p.length = 3) (ht : t.length = 3)
    (e e0 : CameraEngine) :
    getCameraState (applyCameraState (some { position := some p, target := some t }) e) =
      { position := p, target := t } ∧
    applyCameraState (some { position := some (getCameraState e0).position,
                             target := some (getCameraState e0).target }) e0 = e0 := by
  constructor
  · rcases p with _ | ⟨a1, _ | ⟨a2, _ | ⟨a3, _ | _⟩⟩⟩ <;> simp_all
    rcases t with _ | ⟨b1, _ | ⟨b2, _ | ⟨b3, _ | _⟩⟩⟩ <;> simp_all
    simp [applyCameraState, fromArray, getCameraState]
  · simp [applyCameraState, getCameraState, fromArray]

/-- C6: with a gobo image loaded and a working raster context, calling
updateGoboTexture twice with identical (scale, rotation, focus, invert)
runs the expensive raster recomputation at most once: the second call finds
the fingerprint unchanged and an existing processed texture and changes
nothing. -/
theorem gobo_recompute_at_most_once (gs : GoboState) (e : GoboEngine)
    (himg : e.goboImage.isSome = true) (hctx : e.ctx = true) :
    updateGoboTexture gs (updateGoboTexture gs e) = updateGoboTexture gs e ∧
    (updateGoboTexture gs (updateGoboTexture gs e)).recomputeCount ≤ e.recomputeCount + 1 := by
  have himg2 : e.goboImage.isNone = false := by
    obtain ⟨v, hv⟩ := Option.isSome_iff_exists.mp himg
    rw [hv]
    rfl
  by_cases hskip : e.lastGoboKey = some (mkGoboKey gs) ∧ e.goboTexture.isSome = true
  · have h1 : updateGoboTexture gs e = e := by
      unfold updateGoboTexture
      simp only [himg2, Bool.false_eq_true, if_false, hctx, Bool.true_eq_false]
      rw [if_pos hskip]
    rw [h1, h1]
    exact ⟨rfl, by omega⟩
  · have h1 : updateGoboTexture gs e =
        { e with lastGoboKey := some (mkGoboKey gs),
                 goboTexture := some e.recomputeCount,
                 hasGobo := true,
                 recomputeCount := e.recomputeCount + 1 } := by
      unfold updateGoboTexture
      simp only [himg2, Bool.false_eq_true, if_false, hctx, Bool.true_eq_false]
      rw [if_neg hskip]
    have h2 : updateGoboTexture gs (updateGoboTexture gs e) = updateGoboTexture gs e := by
      rw [h1]
      unfold updateGoboTexture
      simp [himg2, hctx]
    refine ⟨h2, ?_⟩
    rw [h2, h1]

/-- Witness for gobo_recompute_at_most_once at a concrete gobo state. -/
theorem gobo_recompute_at_most_once_witness :
    (({ goboImage := some 0 } : GoboEngine).goboImage.isSome = true) ∧
    (({ goboImage := some 0 } : GoboEngine).ctx = true) ∧
    (updateGoboTexture ⟨1, 0, 0.5, false⟩
        (updateGoboTexture ⟨1, 0, 0.5, false⟩ { goboImage := some 0 }) =
      updateGoboTexture ⟨1, 0, 0.5, false⟩ { goboImage := some 0 } ∧
    (updateGoboTexture ⟨1, 0, 0.5, false⟩
        (updateGoboTexture ⟨1, 0, 0.5, false⟩ { goboImage := some 0 })).recomputeCount ≤
      ({ goboImage := some 0 } : GoboEngine).recomputeCount + 1) :=
  ⟨rfl, rfl, gobo_recompute_at_most_once ⟨1, 0, 0.5, false⟩ { goboImage := some 0 } rfl rfl⟩

/-- C4: on every exit path of renderHighQuality (completion, cancellation,
timeout, internal exception, fallback failure: the environment quantifies
over all of them) the light position, wall material, wall receive-shadow
flag, spotlight cast-shadow flag, shadow map size, shadow radius, renderer
shadow-map settings, pixel ratio, render surface size, camera control lock
and cancel flag equal their pre-job values when the call returns.  The
hypotheses record the out-of-job engine invariant: outside a job the
controls are unlocked, the wall does not receive shadows, no cancel request
is pending, and the light sits where the lighting state last applied put it
(the UI applies the same state object it then renders). -/
theorem hq_restores_all_paths (state : LightingStateIn) (dir : Vec3) (w h : ℚ)
    (env : RenderEnv) (pre : EngineState)
    (hce : pre.controlsEnabled = true)
    (hrs : pre.wallReceiveShadow = false)
    (hcr : pre.cancelRender = false)
    (hsp : pre.spotPosition = (applyLightingState state dir).lightPos) :
    (renderHighQuality state dir w h env pre).2.spotPosition = pre.spotPosition ∧
    (renderHighQuality state dir w h env pre).2.wallMaterial = pre.wallMaterial ∧
    (renderHighQuality state dir w h env pre).2.wallReceiveShadow = pre.wallReceiveShadow ∧
    (renderHighQuality state dir w h env pre).2.spotCastShadow = pre.spotCastShadow ∧
    (renderHighQuality state dir w h env pre).2.shadowMapSize = pre.shadowMapSize ∧
    (renderHighQuality state dir w h env pre).2.shadowRadius = pre.shadowRadius ∧
    (renderHighQuality state dir w h env pre).2.shadowMapEnabled = pre.shadowMapEnabled ∧
    (renderHighQuality state dir w h env pre).2.shadowMapType = pre.shadowMapType ∧
    (renderHighQuality state dir w h env pre).2.pixelScale = pre.pixelScale ∧
    (renderHighQuality state dir w h env pre).2.surfaceW = pre.surfaceW ∧
    (renderHighQuality state dir w h env pre).2.surfaceH = pre.surfaceH ∧
    (renderHighQuality state dir w h env pre).2.controlsEnabled = pre.controlsEnabled ∧
    (renderHighQuality state dir w h env pre).2.cancelRender = pre.cancelRender := by
  simp only [renderHighQuality, hqRestore, applyLightingStateE]
  simp [hsp, hce, hrs, hcr]

theorem hqLoop_bytes (env : RenderEnv) (w h : ℚ) (fuel : ℕ) :
    ∀ i e, ((hqLoop env w h fuel i e).2).lastRenderBytes = e.lastRenderBytes := by
  induction fuel with
  | zero =>
    intro i e
    rfl
  | succ n ih =>
    intro i e
    by_cases hc : env.cancelAt i = true
    · simp [hqLoop, hc]
    · by_cases ht : env.elapsedMs i > 20000
      · simp [hqLoop, hc, ht]
      · by_cases hr : env.renderThrows i = true
        · simp [hqLoop, hc, ht, hr]
        · simp [hqLoop, hc, ht, hr, ih]

theorem hqLoop_cancel (env : RenderEnv) (w h : ℚ) (fuel : ℕ) :
    ∀ i e k, i ≤ k → k < i + fuel → env.cancelAt k = true →
      (∀ j, i ≤ j → j < k → env.cancelAt j = false ∧ ¬ env.elapsedMs j > 20000 ∧
        env.renderThrows j = false) →
      (hqLoop env w h fuel i e).1 = Except.ok true := by
  induction fuel with
  | zero =>
    intro i e k h1 h2 _ _
    omega
  | succ n ih =>
    intro i e k h1 h2 hk hclean
    by_cases hc : env.cancelAt i = true
    · simp [hqLoop, hc]
    · have hik : i < k := by
        rcases Nat.lt_or_ge i k with hlt | hge
        · exact hlt
        · have heq : i = k := by omega
          rw [heq] at hc
          exact absurd hk hc
      obtain ⟨_, ht, hr⟩ := hclean i (le_refl i) hik
      simp only [hqLoop, hc, ht, hr, if_false]
      simp only [Bool.false_eq_true, if_false]
      exact ih (i + 1) _ k (by omega) (by omega) hk
        (fun j hj1 hj2 => hclean j (by omega) hj2)

theorem hqLoop_abort (env : RenderEnv) (w h : ℚ) (fuel : ℕ) :
    ∀ i e j, i ≤ j → j < i + fuel →
      (env.elapsedMs j > 20000 ∨ (¬ env.elapsedMs j > 20000 ∧ env.renderThrows j = true)) →
      env.cancelAt j = false →
      (∀ l, i ≤ l → l < j → env.cancelAt l = false ∧ ¬ env.elapsedMs l > 20000 ∧
        env.renderThrows l = false) →
      (hqLoop env w h fuel i e).1 = Except.error () ∧
      (hqLoop env w h fuel i e).2.renderLog =
        e.renderLog ++ List.replicate (j - i) ⟨e.wallMaterial, w, h⟩ ∧
      (hqLoop env w h fuel i e).2.lastRenderBytes = e.lastRenderBytes := by
  induction fuel with
  | zero =>
    intro i e j h1 h2 _ _ _
    omega
  | succ n ih =>
    intro i e j h1 h2 habort hcj hclean
    by_cases hij : i = j
    · subst hij
      rcases habort with ht | ⟨ht, hr⟩
      · simp [hqLoop, hcj, ht]
      · simp [hqLoop, hcj, ht, hr]
    · have hij2 : i < j := by omega
      obtain ⟨hc, ht, hr⟩ := hclean i (le_refl i) hij2
      have hstep := ih (i + 1)
        { e with spotPosition := env.jitterPos i,
                 renderLog := e.renderLog ++ [⟨e.wallMaterial, w, h⟩] }
        j (by omega) (by omega) habort hcj
        (fun l hl1 hl2 => hclean l (by omega) hl2)
      simp only at hstep
      have hrep : j - i = (j - (i + 1)) + 1 := by omega
      simp only [hqLoop, hc, ht, hr, if_false, Bool.false_eq_true]
      refine ⟨hstep.1, ?_, hstep.2.2⟩
      rw [hstep.2.1, hrep, List.replicate_succ]
      simp

/-- The fallback either reports the fallback result or throws, and it throws
only when the fallback context, the fallback render, or the PNG encode
fails. -/
theorem fallback_result_cases (state : LightingStateIn) (dir : Vec3) (w h : ℚ)
    (env : RenderEnv) (e : EngineState) :
    (renderHighQualityFallback state dir w h env e).1 = some RenderResult.fallbackDone ∨
    ((renderHighQualityFallback state dir w h env e).1 = none ∧
      (env.fbCtxOk = false ∨ env.fbRenderThrows = true ∨ env.fbPngOk = false)) := by
  unfold renderHighQualityFallback
  by_cases h1 : env.fbCtxOk = false
  · right
    simp [h1]
  · by_cases h2 : env.fbRenderThrows = true
    · right
      simp [h1, h2]
    · by_cases h3 : env.fbPngOk = false
      · right
        simp [h1, h2, h3]
      · left
        simp [h1, h2, h3]

theorem hq_failed_only_fallback (state : LightingStateIn) (dir : Vec3) (w h : ℚ)
    (env : RenderEnv) (pre : EngineState)
    (hfail : (renderHighQuality state dir w h env pre).1 = RenderResult.failed) :
    env.fbCtxOk = false ∨ env.fbRenderThrows = true ∨ env.fbPngOk = false := by
  simp only [renderHighQuality] at hfail
  by_cases hctx : env.accumCtxOk = false
  · rw [if_pos hctx] at hfail
    simp only at hfail
    rcases hfb : renderHighQualityFallback state dir w h env (hqEnter state dir w h pre)
      with ⟨r, e4⟩
    rw [hfb] at hfail
    rcases fallback_result_cases state dir w h env (hqEnter state dir w h pre)
      with hA | ⟨hB, hflags⟩
    · rw [hfb] at hA
      simp at hA
      rw [hA] at hfail
      simp at hfail
    · exact hflags
  · rw [if_neg hctx] at hfail
    rcases hres : hqLoop env w h 16 0 (hqEnter state dir w h pre) with ⟨st, e3⟩
    rw [hres] at hfail
    rcases st with u | b
    · cases u
      simp only at hfail
      rcases hfb : renderHighQualityFallback state dir w h env e3 with ⟨r, e4⟩
      rw [hfb] at hfail
      rcases fallback_result_cases state dir w h env e3 with hA | ⟨hB, hflags⟩
      · rw [hfb] at hA
        simp at hA
        rw [hA] at hfail
        simp at hfail
      · exact hflags
    · rcases b with _ | _
      · simp only at hfail
        by_cases hc16 : env.cancelAt 16 = true
        · simp [hc16] at hfail
        · by_cases hpng : env.pngOk = true
          · simp [hc16, hpng] at hfail
          · simp [hc16, hpng] at hfail
            rcases hfb : renderHighQualityFallback state dir w h env e3 with ⟨r, e4⟩
            rw [hfb] at hfail
            rcases fallback_result_cases state dir w h env e3 with hA | ⟨hB, hflags⟩
            · rw [hfb] at hA
              simp at hA
              rw [hA] at hfail
              simp at hfail
            · exact hflags
      · simp at hfail

/-- C3: when a cancel request is observed at the poll before sample k of 16
(with no timeout or fault earlier), renderHighQuality returns the Canceled
result and never Completed, the partial accumulation buffer is discarded
(the stored last render bytes are unchanged), and camera controls, wall
material and the shadow settings equal their pre-job values afterwards.  The
hypotheses on pre record the out-of-job invariant (controls unlocked, wall
not receiving shadows). -/
theorem hq_cancel_result (state : LightingStateIn) (dir : Vec3) (w h : ℚ)
    (env : RenderEnv) (pre : EngineState) (k : ℕ)
    (hk16 : k < 16) (hk : env.cancelAt k = true)
    (hclean : ∀ j, j < k → env.cancelAt j = false ∧ ¬ env.elapsedMs j > 20000 ∧
      env.renderThrows j = false)
    (hctx : env.accumCtxOk = true)
    (hce : pre.controlsEnabled = true) (hrs : pre.wallReceiveShadow = false) :
    (renderHighQuality state dir w h env pre).1 = RenderResult.canceled ∧
    RenderResult.canceled ≠ RenderResult.completed ∧
    (renderHighQuality state dir w h env pre).2.lastRenderBytes = pre.lastRenderBytes ∧
    (renderHighQuality state dir w h env pre).2.controlsEnabled = pre.controlsEnabled ∧
    (renderHighQuality state dir w h env pre).2.wallMaterial = pre.wallMaterial ∧
    (renderHighQuality state dir w h env pre).2.wallReceiveShadow = pre.wallReceiveShadow ∧
    (renderHighQuality state dir w h env pre).2.spotCastShadow = pre.spotCastShadow ∧
    (renderHighQuality state dir w h env pre).2.shadowMapSize = pre.shadowMapSize ∧
    (renderHighQuality state dir w h env pre).2.shadowRadius = pre.shadowRadius ∧
    (renderHighQuality state dir w h env pre).2.shadowMapEnabled = pre.shadowMapEnabled ∧
    (renderHighQuality state dir w h env pre).2.shadowMapType = pre.shadowMapType := by
  have hloop := hqLoop_cancel env w h 16 0 (hqEnter state dir w h pre) k (Nat.zero_le k)
    (by omega) hk (fun j _ hj2 => hclean j hj2)
  have hbytes := hqLoop_bytes env w h 16 0 (hqEnter state dir w h pre)
  rcases hres : hqLoop env w h 16 0 (hqEnter state dir w h pre) with ⟨st, e3⟩
  rw [hres] at hloop hbytes
  simp only at hloop hbytes
  subst hloop
  have hb2 : (hqEnter state dir w h pre).lastRenderBytes = pre.lastRenderBytes := by
    simp [hqEnter, applyLightingStateE]
  simp only [renderHighQuality, hres]
  simp [hctx, hqRestore, applyLightingStateE, hbytes, hb2, hce, hrs]

/-- Witness for hq_cancel_result: cancel observed at the first poll. -/
theorem hq_cancel_result_witness :
    (0 < 16) ∧ (envCancel0.cancelAt 0 = true) ∧ (envCancel0.accumCtxOk = true) ∧
    (preState0.controlsEnabled = true) ∧ (preState0.wallReceiveShadow = false) ∧
    ((renderHighQuality {} ⟨0, 0, 1⟩ 1920 1080 envCancel0 preState0).1 = RenderResult.canceled ∧
    RenderResult.canceled ≠ RenderResult.completed ∧
    (renderHighQuality {} ⟨0, 0, 1⟩ 1920 1080 envCancel0 preState0).2.lastRenderBytes = preState0.lastRenderBytes ∧
    (renderHighQuality {} ⟨0, 0, 1⟩ 1920 1080 envCancel0 preState0).2.controlsEnabled = preState0.controlsEnabled ∧
    (renderHighQuality {} ⟨0, 0, 1⟩ 1920 1080 envCancel0 preState0).2.wallMaterial = preState0.wallMaterial ∧
    (renderHighQuality {} ⟨0, 0, 1⟩ 1920 1080 envCancel0 preState0).2.wallReceiveShadow = preState0.wallReceiveShadow ∧
    (renderHighQuality {} ⟨0, 0, 1⟩ 1920 1080 envCancel0 preState0).2.spotCastShadow = preState0.spotCastShadow ∧
    (renderHighQuality {} ⟨0, 0, 1⟩ 1920 1080 envCancel0 preState0).2.shadowMapSize = preState0.shadowMapSize ∧
    (renderHighQuality {} ⟨0, 0, 1⟩ 1920 1080 envCancel0 preState0).2.shadowRadius = preState0.shadowRadius ∧
    (renderHighQuality {} ⟨0, 0, 1⟩ 1920 1080 envCancel0 preState0).2.shadowMapEnabled = preState0.shadowMapEnabled ∧
    (renderHighQuality {} ⟨0, 0, 1⟩ 1920 1080 envCancel0 preState0).2.shadowMapType = preState0.shadowMapType) :=
  ⟨by omega, rfl, rfl, rfl, rfl,
    hq_cancel_result {} ⟨0, 0, 1⟩ 1920 1080 envCancel0 preState0 0 (by omega) rfl
      (fun j hj => absurd hj (Nat.not_lt_zero j)) rfl rfl rfl⟩

/-- Witness for hq_restores_all_paths under the cancel environment. -/
theorem hq_restores_all_paths_witness :
    (preState0.controlsEnabled = true) ∧ (preState0.wallReceiveShadow = false) ∧
    (preState0.cancelRender = false) ∧
    (preState0.spotPosition = (applyLightingState {} ⟨0, 0, 1⟩).lightPos) ∧
    ((renderHighQuality {} ⟨0, 0, 1⟩ 1920 1080 envCancel0 preState0).2.spotPosition = preState0.spotPosition ∧
    (renderHighQuality {} ⟨0, 0, 1⟩ 1920 1080 envCancel0 preState0).2.wallMaterial = preState0.wallMaterial ∧
    (renderHighQuality {} ⟨0, 0, 1⟩ 1920 1080 envCancel0 preState0).2.wallReceiveShadow = preState0.wallReceiveShadow ∧
    (renderHighQuality {} ⟨0, 0, 1⟩ 1920 1080 envCancel0 preState0).2.spotCastShadow = preState0.spotCastShadow ∧
    (renderHighQuality {} ⟨0, 0, 1⟩ 1920 1080 envCancel0 preState0).2.shadowMapSize = preState0.shadowMapSize ∧
    (renderHighQuality {} ⟨0, 0, 1⟩ 1920 1080 envCancel0 preState0).2.shadowRadius = preState0.shadowRadius ∧
    (renderHighQuality {} ⟨0, 0, 1⟩ 1920 1080 envCancel0 preState0).2.shadowMapEnabled = preState0.shadowMapEnabled ∧
    (renderHighQuality {} ⟨0, 0, 1⟩ 1920 1080 envCancel0 preState0).2.shadowMapType = preState0.shadowMapType ∧
    (renderHighQuality {} ⟨0, 0, 1⟩ 1920 1080 envCancel0 preState0).2.pixelScale = preState0.pixelScale ∧
    (renderHighQuality {} ⟨0, 0, 1⟩ 1920 1080 envCancel0 preState0).2.surfaceW = preState0.surfaceW ∧
    (renderHighQuality {} ⟨0, 0, 1⟩ 1920 1080 envCancel0 preState0).2.surfaceH = preState0.surfaceH ∧
    (renderHighQuality {} ⟨0, 0, 1⟩ 1920 1080 envCancel0 preState0).2.controlsEnabled = preState0.controlsEnabled ∧
    (renderHighQuality {} ⟨0, 0, 1⟩ 1920 1080 envCancel0 preState0).2.cancelRender = preState0.cancelRender) :=
  ⟨rfl, rfl, rfl,
    by norm_num [preState0, applyLightingState, finiteOr, clamp, Vec3.add, Vec3.smul,
      min_def, max_def],
    hq_restores_all_paths {} ⟨0, 0, 1⟩ 1920 1080 envCancel0 preState0 rfl rfl rfl
      (by norm_num [preState0, applyLightingState, finiteOr, clamp, Vec3.add, Vec3.smul,
        min_def, max_def])⟩

/-- C5: when the wall clock exceeds the fixed 20 second ceiling at the poll
before sample j (or any engine-internal render fault occurs there), the loop
is aborted and the job performs exactly one single-pass fallback render with
the Real-Time Shading Model (the preview material) at the requested size,
storing its encoded bytes and reporting the FailedFallback result, distinct
from Completed; and for every environment, an outright Failed result occurs
only when even the fallback could not produce an image (its context, render,
or PNG encode failed): no fault escapes the call boundary, which always
returns one of the four results. -/
theorem hq_timeout_fallback (state : LightingStateIn) (dir : Vec3) (w h : ℚ)
    (env : RenderEnv) (pre : EngineState) (j : ℕ)
    (hj16 : j < 16)
    (habort : env.elapsedMs j > 20000 ∨
      (¬ env.elapsedMs j > 20000 ∧ env.renderThrows j = true))
    (hcj : env.cancelAt j = false)
    (hclean : ∀ l, l < j → env.cancelAt l = false ∧ ¬ env.elapsedMs l > 20000 ∧
      env.renderThrows l = false)
    (hctx : env.accumCtxOk = true)
    (hfb1 : env.fbCtxOk = true) (hfb2 : env.fbRenderThrows = false)
    (hfb3 : env.fbPngOk = true) :
    (renderHighQuality state dir w h env pre).1 = RenderResult.fallbackDone ∧
    RenderResult.fallbackDone ≠ RenderResult.completed ∧
    (renderHighQuality state dir w h env pre).2.lastRenderBytes = some env.fbPngBytes ∧
    (renderHighQuality state dir w h env pre).2.renderLog =
      pre.renderLog ++ List.replicate j ⟨WallMaterial.hq, w, h⟩ ++
        [⟨WallMaterial.preview, w, h⟩] ∧
    (∀ env2 pre2, (renderHighQuality state dir w h env2 pre2).1 = RenderResult.failed →
      env2.fbCtxOk = false ∨ env2.fbRenderThrows = true ∨ env2.fbPngOk = false) := by
  have habort2 := hqLoop_abort env w h 16 0 (hqEnter state dir w h pre) j (Nat.zero_le j)
    (by omega) habort hcj (fun l _ hl2 => hclean l hl2)
  rcases hres : hqLoop env w h 16 0 (hqEnter state dir w h pre) with ⟨st, e3⟩
  rw [hres] at habort2
  obtain ⟨hst, hlog, hbytes⟩ := habort2
  simp only at hst hlog hbytes
  subst hst
  have hEnterLog : (hqEnter state dir w h pre).renderLog = pre.renderLog := by
    simp [hqEnter, applyLightingStateE]
  have hEnterMat : (hqEnter state dir w h pre).wallMaterial = WallMaterial.hq := by
    simp [hqEnter, applyLightingStateE]
  have hfbEval : (renderHighQualityFallback state dir w h env e3).1 = some RenderResult.fallbackDone ∧
      (renderHighQualityFallback state dir w h env e3).2.lastRenderBytes = some env.fbPngBytes ∧
      (renderHighQualityFallback state dir w h env e3).2.renderLog =
        e3.renderLog ++ [⟨WallMaterial.preview, w, h⟩] := by
    unfold renderHighQualityFallback
    simp [hfb1, hfb2, hfb3, applyLightingStateE]
  rcases hfbp : renderHighQualityFallback state dir w h env e3 with ⟨r, e4⟩
  rw [hfbp] at hfbEval
  simp only at hfbEval
  obtain ⟨hr, he4b, he4l⟩ := hfbEval
  subst hr
  refine ⟨?_, by simp, ?_, ?_, fun env2 pre2 hf =>
    hq_failed_only_fallback state dir w h env2 pre2 hf⟩
  · simp [renderHighQuality, hres, hctx, hfbp]
  · simp [renderHighQuality, hres, hctx, hfbp, hqRestore, applyLightingStateE, he4b]
  · simp only [renderHighQuality, hres]
    simp [hctx, hfbp, hqRestore, applyLightingStateE, he4l, hlog, hEnterLog, hEnterMat]

/-- Witness for hq_timeout_fallback: the clock is already past the ceiling at
the first poll and the fallback succeeds. -/
theorem hq_timeout_fallback_witness :
    (0 < 16) ∧
    (envTimeout0.elapsedMs 0 > 20000 ∨
      (¬ envTimeout0.elapsedMs 0 > 20000 ∧ envTimeout0.renderThrows 0 = true)) ∧
    (envTimeout0.cancelAt 0 = false) ∧ (envTimeout0.accumCtxOk = true) ∧
    (envTimeout0.fbCtxOk = true) ∧ (envTimeout0.fbRenderThrows = false) ∧
    (envTimeout0.fbPngOk = true) ∧
    ((renderHighQuality {} ⟨0, 0, 1⟩ 1920 1080 envTimeout0 preState0).1 = RenderResult.fallbackDone ∧
    RenderResult.fallbackDone ≠ RenderResult.completed ∧
    (renderHighQuality {} ⟨0, 0, 1⟩ 1920 1080 envTimeout0 preState0).2.lastRenderBytes =
      some envTimeout0.fbPngBytes ∧
    (renderHighQuality {} ⟨0, 0, 1⟩ 1920 1080 envTimeout0 preState0).2.renderLog =
      preState0.renderLog ++ List.replicate 0 ⟨WallMaterial.hq, 1920, 1080⟩ ++
        [⟨WallMaterial.preview, 1920, 1080⟩] ∧
    (∀ env2 pre2, (renderHighQuality {} ⟨0, 0, 1⟩ 1920 1080 env2 pre2).1 = RenderResult.failed →
      env2.fbCtxOk = false ∨ env2.fbRenderThrows = true ∨ env2.fbPngOk = false)) :=
  ⟨by omega, Or.inl (by norm_num [envTimeout0]), rfl, rfl, rfl, rfl, rfl,
    hq_timeout_fallback {} ⟨0, 0, 1⟩ 1920 1080 envTimeout0 preState0 0 (by omega)
      (Or.inl (by norm_num [envTimeout0])) rfl
      (fun l hl => absurd hl (Nat.not_lt_zero l)) rfl rfl rfl rfl⟩

/-- Witness for camera_state_roundtrip on concrete arrays and cameras. -/
theorem camera_state_roundtrip_witness :
    ([(0 : ℚ), 1.1, 3.2].length = 3) ∧ ([(0 : ℚ), 1, 0].length = 3) ∧
    (getCameraState (applyCameraState
        (some { position := some [(0 : ℚ), 1.1, 3.2], target := some [(0 : ℚ), 1, 0] })
        { position := ⟨5, 5, 5⟩, target := ⟨0, 0, 0⟩ }) =
      { position := [(0 : ℚ), 1.1, 3.2], target := [(0 : ℚ), 1, 0] } ∧
    applyCameraState
        (some { position := some (getCameraState { position := ⟨5, 5, 5⟩, target := ⟨0, 0, 0⟩ }).position,
                target := some (getCameraState { position := ⟨5, 5, 5⟩, target := ⟨0, 0, 0⟩ }).target })
        { position := ⟨5, 5, 5⟩, target := ⟨0, 0, 0⟩ } =
      { position := ⟨5, 5, 5⟩, target := ⟨0, 0, 0⟩ }) :=
  ⟨rfl, rfl,
    camera_state_roundtrip [(0 : ℚ), 1.1, 3.2] [(0 : ℚ), 1, 0] rfl rfl
      { position := ⟨5, 5, 5⟩, target := ⟨0, 0, 0⟩ }
      { position := ⟨5, 5, 5⟩, target := ⟨0, 0, 0⟩ }⟩

/-- With the haze-enabled factor at 0, per-step scattering vanishes and the
per-step transmittance factor is exp 0 = 1, so the march changes nothing. -/
theorem hazeLoopGo_disabled (o : ShaderOracle) (u : HazeUniforms) (ray : HazeRay)
    (tN tF tO dt : ℚ) (hexp : o.expQ 0 = 1) (hu : u.hazeEnabled = 0) (fuel : ℕ) :
    ∀ i tr ac, hazeLoopGo o u ray tN tF tO dt fuel i tr ac = (tr, ac) := by
  induction fuel with
  | zero =>
    intro i tr ac
    rfl
  | succ n ih =>
    intro i tr ac
    simp only [hazeLoopGo]
    split_ifs with h1 h2 h3 h4 h5 <;>
      simp [hu, hexp, Vec3.smul, Vec3.add, ih]

/-- C7: for every ray and every haze density, when the haze-enabled uniform
is 0 the volumetric haze pass contributes zero radiance and zero alpha (the
fragment is either discarded or evaluates to the zero color with alpha 0),
because per-step scattering is scaled by the haze-enabled factor and the
transmittance stays 1 when the extinction exponent is multiplied by 0; and
applyLightingState drives that uniform to 0 exactly when the state disables
haze. -/
theorem haze_disabled_no_contribution (o : ShaderOracle) (u : HazeUniforms) (ray : HazeRay)
    (hexp : o.expQ 0 = 1) (hu : u.hazeEnabled = 0) :
    (hazeMain o u ray = none ∨ hazeMain o u ray = some (⟨0, 0, 0⟩, 0)) ∧
    (∀ s dir, s.hazeEnabled = some false → (applyLightingState s dir).hazeEnabled = 0) := by
  constructor
  · rcases hrb : rayBox ray.ro ray.rd
        ⟨-(0.5 * u.volumeWidth), -(0.5 * u.volumeHeight), -(0.5 * u.volumeDepth)⟩
        ⟨0.5 * u.volumeWidth, 0.5 * u.volumeHeight, 0.5 * u.volumeDepth⟩ with _ | ⟨t0, t1⟩
    · left
      delta hazeMain
      rw [hrb]
    · have hmm : hazeMain o u ray = hazeMarch o u ray t0 t1 := by
        delta hazeMain
        rw [hrb]
      rw [hmm]
      by_cases hlen : t1 - max t0 0 ≤ 0.0001
      · left
        simp only [hazeMarch]
        rw [if_pos hlen]
      · right
        simp only [hazeMarch]
        rw [if_neg hlen,
          hazeLoopGo_disabled o u ray _ _ _ _ hexp hu hazeMaxSteps 0 1 ⟨0, 0, 0⟩]
        norm_num [clamp, Vec3.add, Vec3.smul]
  · intro s dir h
    simp [applyLightingState, h]

/-- Witness for haze_disabled_no_contribution at a concrete oracle, uniform
set with haze disabled, and ray. -/
theorem haze_disabled_no_contribution_witness :
    (oracle0.expQ 0 = 1) ∧ (hazeUniforms0.hazeEnabled = 0) ∧
    ((hazeMain oracle0 hazeUniforms0 hazeRay0 = none ∨
      hazeMain oracle0 hazeUniforms0 hazeRay0 = some (⟨0, 0, 0⟩, 0)) ∧
    (∀ s dir, s.hazeEnabled = some false → (applyLightingState s dir).hazeEnabled = 0)) :=
  ⟨rfl, rfl, haze_disabled_no_contribution oracle0 hazeUniforms0 hazeRay0 rfl rfl⟩

end LV
